import Mathlib

/-!
Shallow embedding of the device session orchestrator of SumoManager
(src/main.py): the shared session state, the presentation-boundary
request handlers, and one loop iteration of each of the three worker
threads (UpdateFirmware, UpdateConfig, PortUpdate).

External collaborators (HTTP fetches, the serial transport, the
bootloader flasher, the remote file channel, json.loads) are modelled
as oracles in per-run environment records: each fallible call is a
Bool or Option field saying whether that call succeeds and with what
value.  Python-level failure semantics that the workers themselves
exhibit are embedded faithfully:

- referencing a local variable that was never assigned (esp, board,
  firmware_url) raises NameError;
- the token sequence comma-plus in the dialog arguments of the two
  update workers (src/main.py lines 306 and 355) applies unary plus to
  a string literal, which raises TypeError while the call arguments
  are being evaluated, so those dialog emissions always raise;
- PyQt5 rejects None as the value of a str-typed signal argument at
  emit time with TypeError, which the PortUpdate error path triggers
  by passing None as the image argument (line 397).

An exception escaping a run method kills that worker thread; this is
recorded as Outcome.threadCrash, and any code after the raise point
(in particular the request-flag clearing at lines 312 and 361 and the
port assignment at line 400) does not execute.
-/

/-! ## String helpers: the Python `in` operator and `split` -/

/-- Decides whether the first list is an initial segment of the
second (character-wise). -/
def charLead : List Char → List Char → Bool
  | [], _ => true
  | _ :: _, [] => false
  | a :: as, b :: bs => a == b && charLead as bs

/-- Decides whether the first list occurs as a contiguous sublist of
the second; models the Python `in` operator on strings/bytes. -/
def charContains (pat : List Char) : List Char → Bool
  | [] => pat.isEmpty
  | c :: rest => charLead pat (c :: rest) || charContains pat rest

/-- Python `pat in s` for strings. -/
def strContains (s pat : String) : Bool :=
  charContains pat.toList s.toList

/-- Splits a character list at every double-quote character; models
the Python call at src/main.py line 242 that splits the line at the
byte for a double quote. -/
def splitOnQuote : List Char → List (List Char)
  | [] => [[]]
  | c :: rest =>
    let r := splitOnQuote rest
    if c == Char.ofNat 34 then [] :: r
    else
      match r with
      | [] => [[c]]
      | h :: t => (c :: h) :: t

/-- Element 1 of that split, as Python indexing does at line 242: the
text between the first two double quotes, or `none` when the index
raises IndexError. -/
def extractQuoted (line : String) : Option String :=
  match (splitOnQuote line.toList)[1]? with
  | some cs => some (String.mk cs)
  | none => none

/-- Python truthiness of an optional string: None and the empty
string are falsy. -/
def pyTruthy : Option String → Bool
  | none => false
  | some s => !(s == "")

/-! ## Events and run outcomes -/

/-- Externally visible effects of one worker loop iteration: signal
emissions, transport opens/closes, flash writes and remote file
writes. -/
inductive Ev where
  | statusMsg (severity text : String)
  | dialogShown (title : String)
  | usbCon (port : String)
  | usbDcon
  | usbList (networks : List String)
  | fetchBin (url : String)
  | fetchFile (name : String)
  | flashDone
  | hardResetEv
  | espCloseEv
  | boardCloseEv
  | putFile (name : String)
  deriving DecidableEq

/-- How one loop iteration of a worker ended: either the iteration
completed (the while-True loop would continue), or an exception
escaped the run method and the thread died. -/
inductive Outcome where
  | finished
  | threadCrash (exc : String)
  deriving DecidableEq

/-! ## Session state and the presentation-boundary handlers -/

/-- The shared mutable fields of the SumoManager window that the
workers read and write (src/main.py lines 67-69). -/
structure AppState where
  connected_port : Option String
  update_config : Bool
  update_firmware : Bool
  deriving DecidableEq

/-- SumoManager.button_clicked (src/main.py lines 164-178): the WiFi
add button.  Returns early when update_config is set or no port is
connected, or when the network selector still shows the placeholder
text; otherwise raises the config request flag.  The password field
is not read here at all (it is read later, inside UpdateConfig.run). -/
def button_clicked (s : AppState) (wifi_select_text _wifi_pwd_text : String) : AppState :=
  if s.update_config || !(pyTruthy s.connected_port) then s
  else if wifi_select_text == "Network name" then s
  else { s with update_config := true }

/-- SumoManager.update_firmware (src/main.py lines 220-224): the menu
handler.  Raises the firmware request flag when a port is connected
and no config update is running. -/
def update_firmware (s : AppState) : AppState :=
  if pyTruthy s.connected_port && !s.update_config then
    { s with update_firmware := true }
  else s

/-! ## The remote config document and the credential insertion -/

/-- JSON values, enough to model the config.json document read and
written by UpdateConfig.run. -/
inductive JVal where
  | jstr (s : String)
  | jnum (n : Int)
  | jbool (b : Bool)
  | jnull
  | jarr (elems : List JVal)
  | jobj (fields : List (String × JVal))

/-- Python ordered-dict assignment d[k] = v: overwrite in place when
the key is present, append otherwise. -/
def setKey : List (String × JVal) → String → JVal → List (String × JVal)
  | [], k, v => [(k, v)]
  | (k0, v0) :: rest, k, v =>
    if k0 = k then (k, v) :: rest else (k0, v0) :: setKey rest k v

/-- Python dict lookup d[k], as an Option. -/
def lookupKey : List (String × JVal) → String → Option JVal
  | [], _ => none
  | (k0, v0) :: rest, k => if k0 = k then some v0 else lookupKey rest k

/-- The document mutation at src/main.py line 332 (assigning pwd under
ssid inside the wifis entry of config): `none` models the
KeyError/TypeError raised when the document is not an object with an
object under the wifis key. -/
def addWifiCredential (config : JVal) (ssid pwd : String) : Option JVal :=
  match config with
  | JVal.jobj fields =>
    match lookupKey fields "wifis" with
    | some (JVal.jobj wifis) =>
      some (JVal.jobj (setKey fields "wifis" (JVal.jobj (setKey wifis ssid (JVal.jstr pwd)))))
    | _ => none
  | _ => none

/-! ## The firmware update worker: one loop iteration of
UpdateFirmware.run (src/main.py lines 227-312), entered with the
update_firmware flag set. -/

/-- Result of scanning the firmware index page line by line for the
chip marker (src/main.py lines 238-244). -/
inductive ScanResult where
  | found (url : String)
  | indexError
  | notFound
  deriving DecidableEq

/-- The line scan: the first line containing the marker firmware/esp32
has the URL extracted from between its first two double quotes;
`indexError` models the IndexError when that line has fewer than two
quotes; `notFound` means the loop ran off the end of the page, leaving
the local variable firmware_url unassigned. -/
def scanIndex : List String → ScanResult
  | [] => ScanResult.notFound
  | l :: ls =>
    if strContains l "firmware/esp32" then
      match extractQuoted l with
      | some u => ScanResult.found u
      | none => ScanResult.indexError
    else scanIndex ls

/-- The fixed companion file list (src/main.py line 256). -/
def file_names : List String :=
  ["uwebsockets.py", "config.json", "hal.py", "main.py", "boot.py"]

/-- The download loop at src/main.py lines 259-263: per file, a status
message is emitted and the fetch is attempted; a failing fetch raises
and stops the loop.  Returns the emitted events and whether every
fetch succeeded. -/
def fetchCompanions (ok : String → Bool) : List String → List Ev × Bool
  | [] => ([], true)
  | f :: fs =>
    let pre := [Ev.statusMsg "warning" ("Downloading firmware... " ++ f), Ev.fetchFile f]
    if ok f then
      let r := fetchCompanions ok fs
      (pre ++ r.1, r.2)
    else (pre, false)

/-- The upload loop at src/main.py lines 290-293: per file, a status
message is emitted and board.put is attempted; a failing put raises
and stops the loop. -/
def putCompanions (ok : String → Bool) : List String → List Ev × Bool
  | [] => ([], true)
  | f :: fs =>
    let pre := [Ev.statusMsg "warning" ("Uploading firmware... " ++ f), Ev.putFile f]
    if ok f then
      let r := putCompanions ok fs
      (pre ++ r.1, r.2)
    else (pre, false)

/-- Oracle for the external calls made by one firmware run. -/
structure FwEnv where
  indexLines : Option (List String)
  binFetchOk : Bool
  companionFetchOk : String → Bool
  detectOk : Bool
  flashOk : Bool
  boardOpenOk : Bool
  putsOk : String → Bool

/-- Result of one firmware loop iteration. -/
structure FwResult where
  events : List Ev
  connected_port : Option String
  update_firmware : Bool
  outcome : Outcome

/-- The except block at src/main.py lines 300-309.  It never
completes: when esp was not assigned, the first statement raises
NameError; when board was not assigned, the second raises NameError;
otherwise the dialog argument list applies unary plus to a string
(line 306) and raises TypeError.  In every case the exception escapes
run, the flag clearing at line 312 is skipped, and the thread dies. -/
def fwCrash (evs : List Ev) (port : Option String) (espBound boardBound : Bool) : FwResult :=
  if espBound then
    if boardBound then
      { events := evs ++ [Ev.espCloseEv, Ev.boardCloseEv], connected_port := port,
        update_firmware := true, outcome := Outcome.threadCrash "TypeError" }
    else
      { events := evs ++ [Ev.espCloseEv], connected_port := port,
        update_firmware := true, outcome := Outcome.threadCrash "NameError" }
  else
    { events := evs, connected_port := port,
      update_firmware := true, outcome := Outcome.threadCrash "NameError" }

/-- Status message emitted on entry (src/main.py line 234). -/
def fwMsg0 : Ev := Ev.statusMsg "warning" "Updating firmware..."

/-- Status message emitted before the binary URL is used (line 246). -/
def fwMsg1 : Ev := Ev.statusMsg "warning" "Downloading firmware... esp32.bin"

/-- Status message emitted before write_flash (line 273). -/
def fwMsg2 : Ev := Ev.statusMsg "warning" "Uploading firmware... esp32.bin"

/-- One iteration of UpdateFirmware.run with the flag set: fetch the
index page, resolve the binary URL, download the binary and the
companion files, flash the binary, hard-reset, reopen the port as a
file channel and upload the companions; on success clear
connected_port (line 299) and the request flag (line 312).  Any
failure falls into fwCrash. -/
def updateFirmwareRun (port : Option String) (env : FwEnv) : FwResult :=
  match env.indexLines with
  | none => fwCrash [fwMsg0] port false false
  | some lns =>
    match scanIndex lns with
    | ScanResult.indexError => fwCrash [fwMsg0] port false false
    | ScanResult.notFound => fwCrash [fwMsg0, fwMsg1] port false false
    | ScanResult.found url =>
      if env.binFetchOk then
        if (fetchCompanions env.companionFetchOk file_names).2 then
          if env.detectOk then
            if env.flashOk then
              if env.boardOpenOk then
                if (putCompanions env.putsOk file_names).2 then
                  { events := [fwMsg0, fwMsg1, Ev.fetchBin url]
                      ++ (fetchCompanions env.companionFetchOk file_names).1
                      ++ [fwMsg2, Ev.flashDone, Ev.hardResetEv, Ev.espCloseEv]
                      ++ (putCompanions env.putsOk file_names).1
                      ++ [Ev.boardCloseEv, Ev.statusMsg "info" "Successfully updated firmware"],
                    connected_port := none, update_firmware := false,
                    outcome := Outcome.finished }
                else
                  fwCrash ([fwMsg0, fwMsg1, Ev.fetchBin url]
                      ++ (fetchCompanions env.companionFetchOk file_names).1
                      ++ [fwMsg2, Ev.flashDone, Ev.hardResetEv, Ev.espCloseEv]
                      ++ (putCompanions env.putsOk file_names).1) port true true
              else
                fwCrash ([fwMsg0, fwMsg1, Ev.fetchBin url]
                    ++ (fetchCompanions env.companionFetchOk file_names).1
                    ++ [fwMsg2, Ev.flashDone, Ev.hardResetEv, Ev.espCloseEv]) port true false
            else
              fwCrash ([fwMsg0, fwMsg1, Ev.fetchBin url]
                  ++ (fetchCompanions env.companionFetchOk file_names).1
                  ++ [fwMsg2]) port true false
          else
            fwCrash ([fwMsg0, fwMsg1, Ev.fetchBin url]
                ++ (fetchCompanions env.companionFetchOk file_names).1) port false false
        else
          fwCrash ([fwMsg0, fwMsg1, Ev.fetchBin url]
              ++ (fetchCompanions env.companionFetchOk file_names).1) port false false
      else
        fwCrash [fwMsg0, fwMsg1, Ev.fetchBin url] port false false

/-! ## The config update worker: one loop iteration of
UpdateConfig.run (src/main.py lines 314-361), entered with the
update_config flag set. -/

/-- Oracle for the external calls made by one config run: the channel
open, the config.json read, the json.loads result, the write back and
the deliberate reconnect. -/
structure CfgEnv where
  boardOpenOk : Bool
  getOk : Bool
  parsed : Option JVal
  putOk : Bool
  reopenOk : Bool

/-- Result of one config loop iteration. -/
structure CfgResult where
  events : List Ev
  connected_port : Option String
  update_config : Bool
  outcome : Outcome

/-- Status message emitted on entry (src/main.py line 322). -/
def cfgMsg0 : Ev := Ev.statusMsg "warning" "Adding WiFi credentials..."

/-- One iteration of UpdateConfig.run with the flag set.  The except
block (lines 350-358) never completes: board.close raises NameError
when the channel open itself failed, and otherwise the dialog
argument list applies unary plus to a string (line 355) and raises
TypeError; so on any failure the flag clearing at line 361 is skipped
and the thread dies. -/
def updateConfigRun (ssid pwd : String) (port : Option String) (env : CfgEnv) : CfgResult :=
  if env.boardOpenOk then
    if env.getOk then
      match env.parsed with
      | some config =>
        match addWifiCredential config ssid pwd with
        | some _newConfig =>
          if env.putOk then
            if env.reopenOk then
              { events := [cfgMsg0, Ev.putFile "config.json", Ev.boardCloseEv, Ev.boardCloseEv,
                  Ev.statusMsg "info" "Successfully added WiFi credentials",
                  Ev.dialogShown "Successfully added WiFi credentials"],
                connected_port := port, update_config := false, outcome := Outcome.finished }
            else
              { events := [cfgMsg0, Ev.putFile "config.json", Ev.boardCloseEv, Ev.boardCloseEv],
                connected_port := port, update_config := true,
                outcome := Outcome.threadCrash "TypeError" }
          else
            { events := [cfgMsg0, Ev.putFile "config.json", Ev.boardCloseEv],
              connected_port := port, update_config := true,
              outcome := Outcome.threadCrash "TypeError" }
        | none =>
          { events := [cfgMsg0, Ev.boardCloseEv], connected_port := port,
            update_config := true, outcome := Outcome.threadCrash "TypeError" }
      | none =>
        { events := [cfgMsg0, Ev.boardCloseEv], connected_port := port,
          update_config := true, outcome := Outcome.threadCrash "TypeError" }
    else
      { events := [cfgMsg0, Ev.boardCloseEv], connected_port := port,
        update_config := true, outcome := Outcome.threadCrash "TypeError" }
  else
    { events := [cfgMsg0], connected_port := port,
      update_config := true, outcome := Outcome.threadCrash "NameError" }

/-! ## The port monitor: one poll cycle of PortUpdate.run
(src/main.py lines 363-403). -/

/-- One entry of serial.tools.list_ports.comports(). -/
structure PortInfo where
  device : String
  hwid : String

/-- The vendor scan at src/main.py lines 370-377: the first port whose
hwid contains one of the two vendor prefixes. -/
def scanPorts : List PortInfo → Option String
  | [] => none
  | p :: ps =>
    if strContains p.hwid "1A86:" || strContains p.hwid "10C4:" then some p.device
    else scanPorts ps

/-- Oracle for the external calls of one poll cycle: the enumerated
ports, whether the channel open succeeds, and the get_networks result
(none models a raise). -/
structure PmEnv where
  ports : List PortInfo
  boardOpenOk : Bool
  networks : Option (List String)

/-- Result of one poll cycle. -/
structure PmResult where
  events : List Ev
  connected_port : Option String
  outcome : Outcome

/-- One poll cycle of PortUpdate.run.  On a newly seen truthy port:
emit usb_con, open the channel, list networks, close, emit the list,
then assign connected_port (line 400).  The except block (391-398)
raises NameError on the unbound board when the open failed, and
otherwise raises TypeError emitting the dialog with a None image
argument; either exception skips the assignment at line 400 and kills
the monitor thread.  When no truthy port is found, emit usb_dcon
every cycle; its slot (usb_action with no data, lines 198-201) clears
connected_port. -/
def portUpdateCycle (connected : Option String) (env : PmEnv) : PmResult :=
  match scanPorts env.ports with
  | some p =>
    if p == "" then
      { events := [Ev.usbDcon], connected_port := none, outcome := Outcome.finished }
    else if some p = connected then
      { events := [], connected_port := connected, outcome := Outcome.finished }
    else
      if env.boardOpenOk then
        match env.networks with
        | some nets =>
          { events := [Ev.usbCon p, Ev.boardCloseEv, Ev.usbList nets],
            connected_port := some p, outcome := Outcome.finished }
        | none =>
          { events := [Ev.usbCon p, Ev.boardCloseEv], connected_port := connected,
            outcome := Outcome.threadCrash "TypeError" }
      else
        { events := [Ev.usbCon p], connected_port := connected,
          outcome := Outcome.threadCrash "NameError" }
  | none =>
    { events := [Ev.usbDcon], connected_port := none, outcome := Outcome.finished }

/-! ## Event predicates -/

/-- True exactly on remote file write events. -/
def isPut : Ev → Bool
  | Ev.putFile _ => true
  | _ => false

/-- True exactly on the flash write event. -/
def isFlash : Ev → Bool
  | Ev.flashDone => true
  | _ => false

/-- True exactly on modal dialog events. -/
def isDialog : Ev → Bool
  | Ev.dialogShown _ => true
  | _ => false

/-- True exactly on error-severity status messages. -/
def isErrorMsg : Ev → Bool
  | Ev.statusMsg sev _ => sev == "error"
  | _ => false

/-- True exactly on the firmware binary fetch event. -/
def isFetchBin : Ev → Bool
  | Ev.fetchBin _ => true
  | _ => false

/-- Some remote file write occurs in the trace. -/
def hasPut (evs : List Ev) : Bool := evs.any isPut

/-- The flash write occurs in the trace. -/
def hasFlash (evs : List Ev) : Bool := evs.any isFlash

/-- Some modal dialog occurs in the trace. -/
def hasDialog (evs : List Ev) : Bool := evs.any isDialog

/-- Some error status message occurs in the trace. -/
def hasErrorMsg (evs : List Ev) : Bool := evs.any isErrorMsg

/-- The firmware binary fetch occurs in the trace. -/
def hasFetchBin (evs : List Ev) : Bool := evs.any isFetchBin

/-- An event that is neither a file write nor the flash write. -/
def evClean (e : Ev) : Bool := !isPut e && !isFlash e

/-- Scanning from the front, no file write occurs before the first
flash write: every put in the trace is strictly preceded by the flash
step. -/
def flashBeforePuts : List Ev → Bool
  | [] => true
  | Ev.flashDone :: _ => true
  | Ev.putFile _ :: _ => false
  | _ :: rest => flashBeforePuts rest

/-! ## Concrete run environments used to evaluate the model -/

/-- An index page whose marker line carries the binary URL between
quotes; every external call succeeds. -/
def fwEnvAllOk : FwEnv :=
  { indexLines := some ["<a href=\"http://x/esp32.bin\">firmware/esp32</a>"],
    binFetchOk := true, companionFetchOk := fun _ => true, detectOk := true,
    flashOk := true, boardOpenOk := true, putsOk := fun _ => true }

/-- The very first external call, the index page fetch, raises: the
failure occurs before esp or board is assigned. -/
def fwEnvNetDown : FwEnv :=
  { indexLines := none, binFetchOk := true, companionFetchOk := fun _ => true,
    detectOk := true, flashOk := true, boardOpenOk := true, putsOk := fun _ => true }

/-- An index page with no line containing the chip marker. -/
def fwEnvNoMarker : FwEnv :=
  { indexLines := some ["<html>", "<body>no such link</body>"], binFetchOk := true,
    companionFetchOk := fun _ => true, detectOk := true, flashOk := true,
    boardOpenOk := true, putsOk := fun _ => true }

/-- Everything succeeds up to write_flash, which raises. -/
def fwEnvFlashFail : FwEnv :=
  { indexLines := some ["<a href=\"http://x/esp32.bin\">firmware/esp32</a>"],
    binFetchOk := true, companionFetchOk := fun _ => true, detectOk := true,
    flashOk := false, boardOpenOk := true, putsOk := fun _ => true }

/-- Flashing succeeds; the companion upload fails at main.py. -/
def fwEnvPutFail : FwEnv :=
  { indexLines := some ["<a href=\"http://x/esp32.bin\">firmware/esp32</a>"],
    binFetchOk := true, companionFetchOk := fun _ => true, detectOk := true,
    flashOk := true, boardOpenOk := true, putsOk := fun f => !(f == "main.py") }

/-- The channel open in the config worker raises before board is
assigned. -/
def cfgEnvOpenFail : CfgEnv :=
  { boardOpenOk := false, getOk := true,
    parsed := some (JVal.jobj [("wifis", JVal.jobj [])]),
    putOk := true, reopenOk := true }

/-- The remote config document does not parse as JSON at all. -/
def cfgEnvBadParse : CfgEnv :=
  { boardOpenOk := true, getOk := true, parsed := none, putOk := true, reopenOk := true }

/-- The remote config document parses but has no wifis object. -/
def cfgEnvNoWifisKey : CfgEnv :=
  { boardOpenOk := true, getOk := true,
    parsed := some (JVal.jobj [("firmware_version", JVal.jstr "0.5.2")]),
    putOk := true, reopenOk := true }

/-- A poll cycle that sees one matching port but whose channel open
raises before board is assigned. -/
def pmEnvOpenFail : PmEnv :=
  { ports := [{ device := "/dev/ttyUSB0", hwid := "USB VID:PID=10C4:EA60" }],
    boardOpenOk := false, networks := some ["HomeWifi"] }

/-- A poll cycle that enumerates no ports at all. -/
def pmEnvNoPorts : PmEnv := { ports := [], boardOpenOk := true, networks := some [] }

/-- A poll cycle whose matching port bootstraps successfully. -/
def pmEnvArriveOk : PmEnv :=
  { ports := [{ device := "/dev/ttyUSB0", hwid := "USB VID:PID=10C4:EA60" }],
    boardOpenOk := true, networks := some ["HomeWifi", "OfficeWifi"] }

/-! ## Helper lemmas about traces -/

theorem flashBeforePuts_cons_clean (e : Ev) (rest : List Ev) (he : evClean e = true) :
    flashBeforePuts (e :: rest) = flashBeforePuts rest := by
  cases e <;> first
    | rfl
    | simp [evClean, isPut, isFlash] at he

theorem flashBeforePuts_append_clean (A B : List Ev) (hA : A.all evClean = true) :
    flashBeforePuts (A ++ B) = flashBeforePuts B := by
  induction A with
  | nil => rfl
  | cons e A ih =>
    simp only [List.all_cons, Bool.and_eq_true] at hA
    rw [List.cons_append, flashBeforePuts_cons_clean e _ hA.1, ih hA.2]

theorem flashBeforePuts_of_clean (A : List Ev) (hA : A.all evClean = true) :
    flashBeforePuts A = true := by
  have h := flashBeforePuts_append_clean A [] hA
  simpa using h

theorem hasPut_of_clean (A : List Ev) (hA : A.all evClean = true) : hasPut A = false := by
  induction A with
  | nil => rfl
  | cons e A ih =>
    simp only [List.all_cons, Bool.and_eq_true] at hA
    have he : isPut e = false := by
      have h1 := hA.1
      cases e <;> simp [evClean, isPut, isFlash] at h1 ⊢
    simp only [hasPut, List.any_cons, he, Bool.false_or]
    exact ih hA.2

theorem fetchCompanions_clean (ok : String → Bool) (fs : List String) :
    ((fetchCompanions ok fs).1).all evClean = true := by
  induction fs with
  | nil => rfl
  | cons f fs ih =>
    simp only [fetchCompanions]
    cases h : ok f with
    | true => simp [h, List.all_append, ih, evClean, isPut, isFlash]
    | false => simp [h, evClean, isPut, isFlash]

/-- Structure of the event trace of one firmware run: either the run
never reached the flash step and the trace holds neither a flash
write nor a file write, or the flash step ran and the trace splits as
a clean prefix, the flash write, and a suffix. -/
theorem fw_events_shape (port : Option String) (env : FwEnv) :
    (updateFirmwareRun port env).events.all evClean = true ∨
    (env.flashOk = true ∧ ∃ A B, (updateFirmwareRun port env).events = A ++ Ev.flashDone :: B ∧
      A.all evClean = true) := by
  obtain ⟨idx, bF, cF, dF, fF, boF, pF⟩ := env
  simp only [updateFirmwareRun]
  cases idx with
  | none => left; rfl
  | some lns =>
    dsimp only
    cases hscan : scanIndex lns with
    | indexError => left; rfl
    | notFound => left; rfl
    | found url =>
      cases bF with
      | false => left; rfl
      | true =>
        generalize hfc : fetchCompanions cF file_names = fc
        obtain ⟨devs, dok⟩ := fc
        have hdevs : devs.all evClean = true := by
          have h := fetchCompanions_clean cF file_names
          rw [hfc] at h
          exact h
        cases dok with
        | false =>
          left
          simp [fwCrash, List.all_append, hdevs, evClean, isPut, isFlash, fwMsg0, fwMsg1]
        | true =>
          cases dF with
          | false =>
            left
            simp [fwCrash, List.all_append, hdevs, evClean, isPut, isFlash, fwMsg0, fwMsg1]
          | true =>
            cases fF with
            | false =>
              left
              simp [fwCrash, List.all_append, hdevs, evClean, isPut, isFlash, fwMsg0, fwMsg1,
                fwMsg2]
            | true =>
              right
              refine ⟨rfl, ?_⟩
              cases boF with
              | false =>
                refine ⟨[fwMsg0, fwMsg1, Ev.fetchBin url] ++ devs ++ [fwMsg2],
                  [Ev.hardResetEv, Ev.espCloseEv, Ev.espCloseEv], ?_, ?_⟩
                · simp [fwCrash, List.append_assoc]
                · simp [List.all_append, hdevs, evClean, isPut, isFlash, fwMsg0, fwMsg1, fwMsg2]
              | true =>
                generalize hpc : putCompanions pF file_names = pc
                obtain ⟨pevs, pok⟩ := pc
                cases pok with
                | false =>
                  refine ⟨[fwMsg0, fwMsg1, Ev.fetchBin url] ++ devs ++ [fwMsg2],
                    [Ev.hardResetEv, Ev.espCloseEv] ++ pevs ++ [Ev.espCloseEv, Ev.boardCloseEv],
                    ?_, ?_⟩
                  · simp [fwCrash, List.append_assoc]
                  · simp [List.all_append, hdevs, evClean, isPut, isFlash, fwMsg0, fwMsg1, fwMsg2]
                | true =>
                  refine ⟨[fwMsg0, fwMsg1, Ev.fetchBin url] ++ devs ++ [fwMsg2],
                    [Ev.hardResetEv, Ev.espCloseEv] ++ pevs
                      ++ [Ev.boardCloseEv, Ev.statusMsg "info" "Successfully updated firmware"],
                    ?_, ?_⟩
                  · simp [List.append_assoc]
                  · simp [List.all_append, hdevs, evClean, isPut, isFlash, fwMsg0, fwMsg1, fwMsg2]

/-- The connected_port field after one firmware run: cleared to none
exactly when the run finished, untouched otherwise. -/
theorem fw_run_port_characterization (port : Option String) (env : FwEnv) :
    (updateFirmwareRun port env).connected_port
      = (if (updateFirmwareRun port env).outcome = Outcome.finished then none else port) := by
  obtain ⟨idx, bF, cF, dF, fF, boF, pF⟩ := env
  simp only [updateFirmwareRun]
  cases idx with
  | none => rfl
  | some lns =>
    dsimp only
    cases hscan : scanIndex lns with
    | indexError => rfl
    | notFound => rfl
    | found url =>
      cases bF with
      | false => rfl
      | true =>
        generalize hfc : fetchCompanions cF file_names = fc
        obtain ⟨devs, dok⟩ := fc
        cases dok with
        | false => rfl
        | true =>
          cases dF with
          | false => rfl
          | true =>
            cases fF with
            | false => rfl
            | true =>
              cases boF with
              | false => rfl
              | true =>
                generalize hpc : putCompanions pF file_names = pc
                obtain ⟨pevs, pok⟩ := pc
                cases pok with
                | false => rfl
                | true => rfl

/-- The connected_port field is passed through untouched by every
config run, successful or not. -/
theorem cfg_run_port_unchanged (ssid pwd : String) (port : Option String) (env : CfgEnv) :
    (updateConfigRun ssid pwd port env).connected_port = port := by
  obtain ⟨bO, gO, par, pO, rO⟩ := env
  simp only [updateConfigRun]
  cases bO with
  | false => rfl
  | true =>
    cases gO with
    | false => rfl
    | true =>
      cases par with
      | none => rfl
      | some config =>
        dsimp only
        cases haw : addWifiCredential config ssid pwd with
        | none => rfl
        | some nc =>
          cases pO with
          | false => rfl
          | true =>
            cases rO with
            | false => rfl
            | true => rfl

/-! ## Lemmas about the document update -/

theorem lookupKey_setKey_self (l : List (String × JVal)) (k : String) (v : JVal) :
    lookupKey (setKey l k v) k = some v := by
  induction l with
  | nil => simp [setKey, lookupKey]
  | cons kv rest ih =>
    obtain ⟨k0, v0⟩ := kv
    by_cases h : k0 = k
    · simp [setKey, lookupKey, h]
    · simp [setKey, lookupKey, h, ih]

theorem lookupKey_setKey_ne (l : List (String × JVal)) (k k0 : String) (v : JVal)
    (h : k ≠ k0) : lookupKey (setKey l k0 v) k = lookupKey l k := by
  induction l with
  | nil => simp [setKey, lookupKey, Ne.symm h]
  | cons kv rest ih =>
    obtain ⟨k1, v1⟩ := kv
    by_cases h1 : k1 = k0
    · subst h1
      simp [setKey, lookupKey, Ne.symm h]
    · by_cases h2 : k1 = k <;> simp [setKey, lookupKey, h, h1, h2, ih]

theorem setKey_setKey_self (l : List (String × JVal)) (k : String) (v w : JVal) :
    setKey (setKey l k v) k w = setKey l k w := by
  induction l with
  | nil => simp [setKey]
  | cons kv rest ih =>
    obtain ⟨k0, v0⟩ := kv
    by_cases h : k0 = k
    · simp [setKey, h]
    · simp [setKey, h, ih]

theorem addWifi_idem (doc : JVal) (s p : String) (d : JVal)
    (h : addWifiCredential doc s p = some d) :
    addWifiCredential d s p = some d := by
  cases doc with
  | jstr a => simp [addWifiCredential] at h
  | jnum a => simp [addWifiCredential] at h
  | jbool a => simp [addWifiCredential] at h
  | jnull => simp [addWifiCredential] at h
  | jarr a => simp [addWifiCredential] at h
  | jobj fields =>
    cases hl : lookupKey fields "wifis" with
    | none => simp [addWifiCredential, hl] at h
    | some w =>
      cases w with
      | jstr a => simp [addWifiCredential, hl] at h
      | jnum a => simp [addWifiCredential, hl] at h
      | jbool a => simp [addWifiCredential, hl] at h
      | jnull => simp [addWifiCredential, hl] at h
      | jarr a => simp [addWifiCredential, hl] at h
      | jobj wifis =>
        simp only [addWifiCredential, hl, Option.some.injEq] at h
        subst h
        simp [addWifiCredential, lookupKey_setKey_self, setKey_setKey_self]

/-! ## Claim C1 -/

/-- Claim C1 (counterexample): with the firmware flag set and its run
not completed, a WiFi-add click with a connected device and a valid
network name does raise the config request flag. -/
theorem config_request_during_firmware_cex :
    (button_clicked
      { connected_port := some "/dev/ttyUSB1", update_config := false, update_firmware := true }
      "OfficeWifi" "pw123").update_config = true := by decide

/-- Claim C1 (amended): mutual exclusion is one-sided.  The firmware
menu handler has no effect while a config update is in flight, but
the WiFi-add button does raise the config flag while the firmware
flag is set, provided a device is connected and the selector shows a
valid network name: the guard at src/main.py line 166 checks only
update_config and connected_port. -/
theorem update_exclusion_one_sided (s : AppState) (name pwd : String)
    (_hfw : s.update_firmware = true) (hcfg : s.update_config = false)
    (hconn : pyTruthy s.connected_port = true) (hname : name ≠ "Network name") :
    (button_clicked s name pwd).update_config = true ∧
    (∀ t : AppState, t.update_config = true → update_firmware t = t) := by
  constructor
  · simp [button_clicked, hcfg, hconn, hname]
  · intro t ht
    simp [update_firmware, ht]

/-- Claim C1 (witness): the amended statement evaluated on a concrete
state with the firmware flag set. -/
theorem update_exclusion_one_sided_app :
    (button_clicked
      { connected_port := some "/dev/ttyUSB0", update_config := false, update_firmware := true }
      "HomeWifi" "secret").update_config = true :=
  (update_exclusion_one_sided
    { connected_port := some "/dev/ttyUSB0", update_config := false, update_firmware := true }
    "HomeWifi" "secret" rfl rfl rfl (by decide)).1

/-! ## Claim C2 -/

/-- Claim C2 (counterexample): a successful firmware run mutates
connected_port, clearing it from the connected value to none
(src/main.py line 299). -/
theorem fw_success_clears_port_cex :
    (updateFirmwareRun (some "/dev/ttyUSB0") fwEnvAllOk).connected_port = none ∧
    (updateFirmwareRun (some "/dev/ttyUSB0") fwEnvAllOk).outcome = Outcome.finished :=
  ⟨rfl, rfl⟩

/-- Claim C2 (amended): the config worker never mutates
connected_port; the firmware worker leaves it unchanged on every run
that does not finish and clears it to none on a finished run (the
deliberate reset at src/main.py line 299); only the port monitor
writes it otherwise. -/
theorem workers_port_mutation (ssid pwd : String) (port : Option String)
    (cenv : CfgEnv) (fenv : FwEnv) :
    (updateConfigRun ssid pwd port cenv).connected_port = port ∧
    (updateFirmwareRun port fenv).connected_port
      = (if (updateFirmwareRun port fenv).outcome = Outcome.finished then none else port) :=
  ⟨cfg_run_port_unchanged ssid pwd port cenv, fw_run_port_characterization port fenv⟩

/-! ## Claim C3 -/

/-- Claim C3 (code bug): a failure before the transport handle is
assigned makes the error handler itself raise: the firmware handler
hits NameError on the unbound esp, the config handler on the unbound
board; no dialog and no error status is emitted, the request flag is
not cleared, and the exception escapes the run method. -/
theorem worker_failure_escapes_run :
    (updateFirmwareRun (some "/dev/ttyUSB0") fwEnvNetDown).outcome
      = Outcome.threadCrash "NameError" ∧
    (updateFirmwareRun (some "/dev/ttyUSB0") fwEnvNetDown).update_firmware = true ∧
    hasDialog (updateFirmwareRun (some "/dev/ttyUSB0") fwEnvNetDown).events = false ∧
    hasErrorMsg (updateFirmwareRun (some "/dev/ttyUSB0") fwEnvNetDown).events = false ∧
    (updateConfigRun "OfficeWifi" "pw123" (some "/dev/ttyUSB0") cfgEnvOpenFail).outcome
      = Outcome.threadCrash "NameError" ∧
    (updateConfigRun "OfficeWifi" "pw123" (some "/dev/ttyUSB0") cfgEnvOpenFail).update_config
      = true ∧
    hasDialog (updateConfigRun "OfficeWifi" "pw123" (some "/dev/ttyUSB0") cfgEnvOpenFail).events
      = false := by decide

/-! ## Claim C4 -/

/-- Claim C4 (code bug): when the arrival bootstrap fails at the
channel open, the monitor emits neither the error dialog nor the
error status message: its handler raises NameError on the unbound
board and the monitor thread dies; connected_port stays unchanged
only because the crash skips the unconditional assignment at
src/main.py line 400. -/
theorem port_monitor_arrival_failure_run :
    (portUpdateCycle none pmEnvOpenFail).outcome = Outcome.threadCrash "NameError" ∧
    hasDialog (portUpdateCycle none pmEnvOpenFail).events = false ∧
    hasErrorMsg (portUpdateCycle none pmEnvOpenFail).events = false ∧
    (portUpdateCycle none pmEnvOpenFail).connected_port = none := by decide

/-! ## Claim C5 -/

/-- Claim C5 (counterexample): in a steady disconnected state
(connected_port already clear, no matching port enumerated) a poll
cycle still emits the disconnected notification. -/
theorem steady_disconnected_emission_cex :
    (portUpdateCycle none pmEnvNoPorts).events = [Ev.usbDcon] := by decide

/-- Claim C5 (amended): the disconnected notification is emitted on
every poll cycle in which no matching port is enumerated, not only on
the transition cycle; a stable connection emits nothing; and the
value of connected_port changes only when the enumerated matching
entry differs from it. -/
theorem port_monitor_edge_behavior (c : Option String) (env : PmEnv) (hc : c ≠ some "") :
    (scanPorts env.ports = none →
      (portUpdateCycle c env).events = [Ev.usbDcon] ∧
      (portUpdateCycle c env).connected_port = none) ∧
    (∀ p, scanPorts env.ports = some p → p ≠ "" → c = some p →
      (portUpdateCycle c env).events = [] ∧ (portUpdateCycle c env).connected_port = c) ∧
    ((portUpdateCycle c env).connected_port ≠ c → scanPorts env.ports ≠ c) := by
  obtain ⟨ports, bO, nets⟩ := env
  refine ⟨?_, ?_, ?_⟩
  · intro h
    simp [portUpdateCycle, h]
  · intro p hp hpne hcp
    subst hcp
    simp only [portUpdateCycle, hp]
    simp [hpne]
  · intro hne heq
    apply absurd _ hne
    cases hsp : scanPorts ports with
    | none =>
      rw [hsp] at heq
      simp only [portUpdateCycle, hsp]
      exact heq
    | some p =>
      rw [hsp] at heq
      by_cases hpe : p = ""
      · subst hpe
        exact absurd heq.symm hc
      · simp only [portUpdateCycle, hsp]
        simp [hpe, heq]

/-- Claim C5 (witness): the amended statement applied to the
disconnect-transition cycle. -/
theorem port_monitor_edge_behavior_app :
    (portUpdateCycle (some "/dev/ttyUSB0") pmEnvNoPorts).events = [Ev.usbDcon] ∧
    (portUpdateCycle (some "/dev/ttyUSB0") pmEnvNoPorts).connected_port = none :=
  (port_monitor_edge_behavior (some "/dev/ttyUSB0") pmEnvNoPorts (by decide)).1 rfl

/-! ## Claim C6 -/

/-- Claim C6 (code bug): with a malformed remote document (unparseable
text, or a parsed document without a wifis object) the channel is
indeed closed exactly once, but the request flag is not cleared and
no dialog is shown: the handler raises TypeError evaluating the
dialog arguments and the worker thread dies. -/
theorem config_malformed_doc_run :
    (updateConfigRun "OfficeWifi" "pw123" (some "/dev/ttyUSB0") cfgEnvBadParse).events.count
        Ev.boardCloseEv = 1 ∧
    (updateConfigRun "OfficeWifi" "pw123" (some "/dev/ttyUSB0") cfgEnvBadParse).update_config
      = true ∧
    (updateConfigRun "OfficeWifi" "pw123" (some "/dev/ttyUSB0") cfgEnvBadParse).outcome
      = Outcome.threadCrash "TypeError" ∧
    hasDialog (updateConfigRun "OfficeWifi" "pw123" (some "/dev/ttyUSB0") cfgEnvBadParse).events
      = false ∧
    (updateConfigRun "OfficeWifi" "pw123" (some "/dev/ttyUSB0") cfgEnvNoWifisKey).events.count
        Ev.boardCloseEv = 1 ∧
    (updateConfigRun "OfficeWifi" "pw123" (some "/dev/ttyUSB0") cfgEnvNoWifisKey).update_config
      = true ∧
    (updateConfigRun "OfficeWifi" "pw123" (some "/dev/ttyUSB0") cfgEnvNoWifisKey).outcome
      = Outcome.threadCrash "TypeError" := by decide

/-! ## Claim C7 -/

/-- Claim C7 (code bug): with no marker line in the index page the run
indeed performs no binary download, no flash write and no upload, but
it fails with NameError on the unassigned firmware_url (the program
has no FirmwareResolutionError), the handler then raises on the
unbound esp, so no dialog and no error status is emitted and the
request flag stays set. -/
theorem fw_no_marker_run :
    hasFetchBin (updateFirmwareRun (some "/dev/ttyUSB0") fwEnvNoMarker).events = false ∧
    hasFlash (updateFirmwareRun (some "/dev/ttyUSB0") fwEnvNoMarker).events = false ∧
    hasPut (updateFirmwareRun (some "/dev/ttyUSB0") fwEnvNoMarker).events = false ∧
    hasDialog (updateFirmwareRun (some "/dev/ttyUSB0") fwEnvNoMarker).events = false ∧
    hasErrorMsg (updateFirmwareRun (some "/dev/ttyUSB0") fwEnvNoMarker).events = false ∧
    (updateFirmwareRun (some "/dev/ttyUSB0") fwEnvNoMarker).update_firmware = true ∧
    (updateFirmwareRun (some "/dev/ttyUSB0") fwEnvNoMarker).outcome
      = Outcome.threadCrash "NameError" := by decide

/-! ## Claim C8 -/

/-- Claim C8 (confirmed): starting from a well-formed document whose
wifis object is empty, inserting the pair Home / secret yields a
document whose wifis object maps Home to secret, every other
top-level key is unchanged, and re-applying the same insertion is
idempotent. -/
theorem config_insert_idempotent (fields : List (String × JVal))
    (h : lookupKey fields "wifis" = some (JVal.jobj [])) :
    addWifiCredential (JVal.jobj fields) "Home" "secret"
      = some (JVal.jobj (setKey fields "wifis" (JVal.jobj [("Home", JVal.jstr "secret")]))) ∧
    lookupKey (setKey fields "wifis" (JVal.jobj [("Home", JVal.jstr "secret")])) "wifis"
      = some (JVal.jobj [("Home", JVal.jstr "secret")]) ∧
    (∀ k, k ≠ "wifis" →
      lookupKey (setKey fields "wifis" (JVal.jobj [("Home", JVal.jstr "secret")])) k
        = lookupKey fields k) ∧
    (∀ d, addWifiCredential (JVal.jobj fields) "Home" "secret" = some d →
      addWifiCredential d "Home" "secret" = some d) := by
  refine ⟨?_, lookupKey_setKey_self _ _ _, ?_, ?_⟩
  · simp [addWifiCredential, h, setKey]
  · intro k hk
    exact lookupKey_setKey_ne _ _ _ _ hk
  · intro d hd
    exact addWifi_idem _ _ _ _ hd

/-- Claim C8 (witness): the insertion evaluated on a concrete
two-field document with an empty wifis object. -/
theorem config_insert_idempotent_app :
    addWifiCredential (JVal.jobj [("sumo_id", JVal.jstr "sumo-1"), ("wifis", JVal.jobj [])])
        "Home" "secret"
      = some (JVal.jobj (setKey [("sumo_id", JVal.jstr "sumo-1"), ("wifis", JVal.jobj [])]
          "wifis" (JVal.jobj [("Home", JVal.jstr "secret")]))) :=
  (config_insert_idempotent [("sumo_id", JVal.jstr "sumo-1"), ("wifis", JVal.jobj [])] rfl).1

/-! ## Claim C9 -/

/-- Claim C9 (confirmed): in every firmware run the flash write
strictly precedes every companion file upload; a run whose flash step
fails performs no upload at all; and a run that uploaded anything has
already completed the flash write. -/
theorem flash_precedes_companion_upload (port : Option String) (env : FwEnv) :
    flashBeforePuts (updateFirmwareRun port env).events = true ∧
    (env.flashOk = false → hasPut (updateFirmwareRun port env).events = false) ∧
    (hasPut (updateFirmwareRun port env).events = true →
      hasFlash (updateFirmwareRun port env).events = true) := by
  rcases fw_events_shape port env with hcl | ⟨hfl, A, B, hEq, hA⟩
  · refine ⟨flashBeforePuts_of_clean _ hcl, fun _ => hasPut_of_clean _ hcl, ?_⟩
    intro hput
    rw [hasPut_of_clean _ hcl] at hput
    cases hput
  · refine ⟨?_, ?_, ?_⟩
    · rw [hEq, flashBeforePuts_append_clean _ _ hA]
      rfl
    · intro hf
      rw [hf] at hfl
      cases hfl
    · intro _
      rw [hEq]
      simp [hasFlash, List.any_append, List.any_cons, isFlash]

/-- Claim C9 (witness): a run failing at the flash step uploads
nothing; a run failing during upload has flashed already. -/
theorem flash_precedes_companion_upload_app :
    hasPut (updateFirmwareRun (some "/dev/ttyUSB0") fwEnvFlashFail).events = false ∧
    hasFlash (updateFirmwareRun (some "/dev/ttyUSB0") fwEnvPutFail).events = true :=
  ⟨(flash_precedes_companion_upload (some "/dev/ttyUSB0") fwEnvFlashFail).2.1 rfl,
   (flash_precedes_companion_upload (some "/dev/ttyUSB0") fwEnvPutFail).2.2 (by decide)⟩

/-! ## Claim C10 -/

/-- Claim C10 (counterexample): a request with an empty password, a
connected device, a valid network name and no update in flight does
raise the config request flag (the password field is never read by
the click handler). -/
theorem empty_password_request_cex :
    (button_clicked
      { connected_port := some "/dev/ttyACM0", update_config := false, update_firmware := false }
      "CafeWifi" "").update_config = true := by decide

/-- Claim C10 (amended): after a click, the config request flag is set
iff it was already set, or a device is connected (truthy port) and
the selector does not show the placeholder text; neither the password
contents nor the firmware flag is consulted. -/
theorem button_request_characterization (s : AppState) (name pwd : String) :
    (button_clicked s name pwd).update_config
      = (s.update_config || (pyTruthy s.connected_port && !(name == "Network name"))) := by
  obtain ⟨cp, uc, uf⟩ := s
  cases uc with
  | true => simp [button_clicked]
  | false =>
    cases hcp : pyTruthy cp with
    | false => simp [button_clicked, hcp]
    | true =>
      by_cases hn : name = "Network name"
      · simp [button_clicked, hcp, hn]
      · simp [button_clicked, hcp, hn]
